import Mathlib

/-!
Shallow embedding of `src/framework/graphics/texture.cpp` (otclient).

The Texture class manages one GPU texture: size negotiation against
hardware limits, pixel upload, sampling state (wrap/filter) and a
per-texture transform matrix.  We embed each member function as a pure
function on an explicit `Texture` state; every OpenGL call, painter
notification and logger call is recorded as an event in a trace
(`List GLEvent`), so that "issues no GPU operations" is the statement
that the trace is empty.  C++ `float` arithmetic on the transform matrix
is modelled over `ℚ` (the matrix entries are exact quotients of small
integers); C++ `int` dimensions are modelled as `Nat` (all uses in this
file are non-negative).
-/

/-- Framework size type: a width/height pair (`int` in C++). -/
structure Size where
  width : Nat
  height : Nat
deriving DecidableEq, Repr

/-- The 3×3 transform matrix `Matrix3`, fields listed in the row order of
the initializer lists in `Texture::setupTranformMatrix`. -/
structure Matrix3 where
  m11 : ℚ
  m12 : ℚ
  m13 : ℚ
  m21 : ℚ
  m22 : ℚ
  m23 : ℚ
  m31 : ℚ
  m32 : ℚ
  m33 : ℚ
deriving DecidableEq, Repr

/-- The identity matrix, the default value of a `Matrix3`. -/
def Matrix3.identity : Matrix3 :=
  ⟨1, 0, 0, 0, 1, 0, 0, 0, 1⟩

/-- The capability provider (`g_graphics`): answers for the optional
features queried by `texture.cpp` and the maximum texture dimension. -/
structure Graphics where
  canUseNonPowerOfTwoTextures : Bool
  canUseBilinearFiltering : Bool
  canUseClampToEdge : Bool
  canUseHardwareMipmaps : Bool
  getMaxTextureSize : Nat
deriving DecidableEq, Repr

/-- Upload format selected by `Texture::setupPixels` from the channel
count; `undefinedFormat` models the `GLenum format = 0` left for an
unrecognized channel count. -/
inductive PixelFormat where
  | rgba
  | rgb
  | luminanceAlpha
  | luminance
  | undefinedFormat
deriving DecidableEq, Repr

/-- Parameter name for `glTexParameteri` (wrap or filter selector). -/
inductive TexPName where
  | wrapS
  | wrapT
  | minFilter
  | magFilter
deriving DecidableEq, Repr

/-- Parameter value for `glTexParameteri`. -/
inductive TexParam where
  | clampToEdge
  | glRepeat
  | linear
  | nearest
  | linearMipmapLinear
  | nearestMipmapNearest
deriving DecidableEq, Repr

/-- One externally visible call made by the Texture code: an OpenGL call,
the painter notification inside `bind`, or a logger diagnostic.  The
`logError` event carries the numbers interpolated into the format string
of `Texture::setupSize` (requested width/height, then the maximum size
twice). `texImage2D` carries the level, the size, the chosen format and
whether a pixel buffer was passed (`false` models the `nullptr` upload). -/
inductive GLEvent where
  | genTexture (id : Nat)
  | deleteTexture (id : Nat)
  | setPainterTexture
  | bindTexture (id : Nat)
  | texImage2D (level : Nat) (width : Nat) (height : Nat)
      (format : PixelFormat) (hasPixels : Bool)
  | texParameteri (pname : TexPName) (param : TexParam)
  | copyTexSubImage2D (x : Int) (y : Int) (width : Int) (height : Int)
  | generateMipmap
  | logError (reqWidth : Nat) (reqHeight : Nat) (maxWidth : Nat) (maxHeight : Nat)
deriving DecidableEq, Repr

/-- Framework rectangle type, as used by `copyFromScreen`. -/
structure Rect where
  x : Int
  y : Int
  width : Int
  height : Int
deriving DecidableEq, Repr

/-- The state of one `Texture` object: the member variables of the class
(member names kept).  `m_id = 0` is the invalid/unallocated state. -/
structure Texture where
  m_id : Nat
  m_size : Size
  m_glSize : Size
  m_transformMatrix : Matrix3
  m_hasMipmaps : Bool
  m_smooth : Bool
  m_repeat : Bool
  m_upsideDown : Bool
deriving DecidableEq, Repr

/-- Modelled from the spec: the default-constructed member state comes
from `texture.h`, which is not part of the sources; the spec only fixes
`handle == 0` for an unallocated texture.  All flags start `false` and
the matrix starts as the identity; no claim below depends on the initial
values of `m_hasMipmaps`, `m_smooth`, `m_repeat` or `m_upsideDown`. -/
def Texture.init : Texture :=
  { m_id := 0
    m_size := ⟨0, 0⟩
    m_glSize := ⟨0, 0⟩
    m_transformMatrix := Matrix3.identity
    m_hasMipmaps := false
    m_smooth := false
    m_repeat := false
    m_upsideDown := false }

/-- The doubling loop behind `to_power_of_two`: starting from the power
of two `acc`, keep doubling until `n` is reached.  The first argument is
fuel making the recursion structural; `n` itself is ample fuel because
`n < 2 ^ n`. -/
def to_power_of_two.go (n : Nat) : Nat → Nat → Nat
  | 0, acc => acc
  | fuel + 1, acc => if n ≤ acc then acc else to_power_of_two.go n fuel (2 * acc)

/-- Modelled from the spec: `stdext::to_power_of_two` is not part of the
sources; the spec describes it as rounding a dimension up to "the
smallest power of two ≥ the corresponding logical dimension". -/
def to_power_of_two (n : Nat) : Nat :=
  to_power_of_two.go n n 1

/-- Embedding of `Texture::bind`: notifies the painter and binds the GL handle. -/
def Texture.bind (t : Texture) : List GLEvent :=
  [.setPainterTexture, .bindTexture t.m_id]

/-- Embedding of `Texture::setupWrap`: chooses clamp-to-edge exactly when `m_repeat`
is off and the capability is present, and sets both wrap axes to the
chosen parameter. -/
def setupWrap (g : Graphics) (t : Texture) : List GLEvent :=
  let texParam : TexParam :=
    if ¬t.m_repeat ∧ g.canUseClampToEdge then .clampToEdge else .glRepeat
  [.texParameteri .wrapS texParam, .texParameteri .wrapT texParam]

/-- Embedding of `Texture::setupFilters`: min/mag filters from `m_smooth` and
`m_hasMipmaps`. -/
def setupFilters (t : Texture) : List GLEvent :=
  let minFilter : TexParam :=
    if t.m_smooth then
      if t.m_hasMipmaps then .linearMipmapLinear else .linear
    else
      if t.m_hasMipmaps then .nearestMipmapNearest else .nearest
  let magFilter : TexParam := if t.m_smooth then .linear else .nearest
  [.texParameteri .minFilter minFilter, .texParameteri .magFilter magFilter]

/-- Embedding of `Texture::setupTranformMatrix` (name kept, typo included):
recomputes `m_transformMatrix` from `m_glSize`, `m_size` and
`m_upsideDown`. -/
def Texture.setupTranformMatrix (t : Texture) : Texture :=
  if t.m_upsideDown then
    { t with m_transformMatrix :=
        ⟨1 / (t.m_glSize.width : ℚ), 0, 0,
         0, -(1 / (t.m_glSize.height : ℚ)), 0,
         0, (t.m_size.height : ℚ) / (t.m_glSize.height : ℚ), 1⟩ }
  else
    { t with m_transformMatrix :=
        ⟨1 / (t.m_glSize.width : ℚ), 0, 0,
         0, 1 / (t.m_glSize.height : ℚ), 0,
         0, 0, 1⟩ }

/-- The local `glSize` computed at the top of `Texture::setupSize`:
identity when non-power-of-two textures are usable and rounding is not
forced, otherwise each dimension rounded up independently. -/
def negotiatedSize (g : Graphics) (size : Size) (forcePowerOfTwo : Bool) : Size :=
  if ¬g.canUseNonPowerOfTwoTextures ∨ forcePowerOfTwo then
    ⟨to_power_of_two size.width, to_power_of_two size.height⟩
  else
    size

/-- Embedding of `Texture::setupSize`: computes `glSize`, validates it against the
maximum texture size (logging one diagnostic and returning `false` on
failure, leaving the member state untouched), and on success stores
`m_size`/`m_glSize` and recomputes the transform matrix. -/
def setupSize (g : Graphics) (t : Texture) (size : Size) (forcePowerOfTwo : Bool) :
    Bool × Texture × List GLEvent :=
  let glSize := negotiatedSize g size forcePowerOfTwo
  if max glSize.width glSize.height > g.getMaxTextureSize then
    (false, t,
      [.logError size.width size.height g.getMaxTextureSize g.getMaxTextureSize])
  else
    (true,
      Texture.setupTranformMatrix { t with m_size := size, m_glSize := glSize },
      [])

/-- Embedding of `Texture::setupPixels`: maps the channel count to an upload format
(`0`/undefined outside 1..4) and issues one `glTexImage2D` for the given
level and size.  `hasPixels = false` models a `nullptr` pixel pointer. -/
def setupPixels (level : Nat) (size : Size) (hasPixels : Bool) (channels : Nat) :
    List GLEvent :=
  let format : PixelFormat :=
    match channels with
    | 4 => .rgba
    | 3 => .rgb
    | 2 => .luminanceAlpha
    | 1 => .luminance
    | _ => .undefinedFormat
  [.texImage2D level size.width size.height format hasPixels]

/-- Embedding of `Texture::copyFromScreen`: binds, then copies the screen rectangle
into level 0.  The texture state is unchanged. -/
def Texture.copyFromScreen (t : Texture) (screenRect : Rect) :
    Texture × List GLEvent :=
  (t, t.bind ++
    [.copyTexSubImage2D screenRect.x screenRect.y screenRect.width screenRect.height])

/-- Embedding of `Texture::buildHardwareMipmaps`: returns `false` doing nothing when
the capability is absent; otherwise binds, sets `m_hasMipmaps` (re-running
`setupFilters` exactly on the `false → true` transition), issues
`glGenerateMipmap` and returns `true`. -/
def Texture.buildHardwareMipmaps (g : Graphics) (t : Texture) :
    Bool × Texture × List GLEvent :=
  if ¬g.canUseHardwareMipmaps then
    (false, t, [])
  else if ¬t.m_hasMipmaps then
    let t2 := { t with m_hasMipmaps := true }
    (true, t2, t.bind ++ setupFilters t2 ++ [.generateMipmap])
  else
    (true, t, t.bind ++ [.generateMipmap])

/-- Embedding of `Texture::setSmooth`: ignored when smoothing is requested without
bilinear support, or when the value is unchanged; otherwise stores the
flag, binds and re-applies the filters. -/
def Texture.setSmooth (g : Graphics) (t : Texture) (smooth : Bool) :
    Texture × List GLEvent :=
  if smooth ∧ ¬g.canUseBilinearFiltering then
    (t, [])
  else if smooth = t.m_smooth then
    (t, [])
  else
    let t2 := { t with m_smooth := smooth }
    (t2, t2.bind ++ setupFilters t2)

/-- Embedding of `Texture::setRepeat`: ignored when unchanged; otherwise stores the
flag, binds and re-applies the wrap state. -/
def Texture.setRepeat (g : Graphics) (t : Texture) (r : Bool) :
    Texture × List GLEvent :=
  if t.m_repeat = r then
    (t, [])
  else
    let t2 := { t with m_repeat := r }
    (t2, t2.bind ++ setupWrap g t2)

/-- Embedding of `Texture::setUpsideDown`: ignored when unchanged; otherwise stores
the flag and recomputes the transform matrix (no GL call). -/
def Texture.setUpsideDown (t : Texture) (upsideDown : Bool) : Texture :=
  if t.m_upsideDown = upsideDown then t
  else Texture.setupTranformMatrix { t with m_upsideDown := upsideDown }

/-- Modelled from the spec: the image provider (its class is not part
of the sources) supplies a size, a bit depth (channel count), a raw
pixel buffer, pasting at the origin, and `nextMipmap`, which halves the
image in place "until no further level is available".  Pixel contents
are irrelevant to every claim, so an image is its size and bit depth. -/
structure Image where
  width : Nat
  height : Nat
  bpp : Nat
deriving DecidableEq, Repr

/-- The size of an `Image` as a `Size`. -/
def Image.getSize (img : Image) : Size :=
  ⟨img.width, img.height⟩

/-- Modelled from the spec: `Image::nextMipmap` halves both dimensions
(never below one pixel) and reports whether a further level existed;
at the last (single-pixel) level it reports none. -/
def Image.nextMipmap (img : Image) : Option Image :=
  if img.width ≤ 1 ∧ img.height ≤ 1 then none
  else some ⟨max (img.width / 2) 1, max (img.height / 2) 1, img.bpp⟩

/-- The upload loop `do { setupPixels(level++, ...) } while(glImage->nextMipmap())`
loop of the mipmapped from-image constructor: uploads the current level,
then recurses on the halved image while a further level exists. -/
def mipmapUpload (img : Image) (level : Nat) : List GLEvent :=
  setupPixels level img.getSize true img.bpp ++
    (match h : img.nextMipmap with
     | none => []
     | some img2 => mipmapUpload img2 (level + 1))
termination_by max img.width 1 + max img.height 1
decreasing_by
  unfold Image.nextMipmap at h
  split at h
  · exact absurd h (Option.noConfusion)
  · cases h
    simp only
    omega

/-- Embedding of `Texture::Texture(const ImagePtr&, bool)`: negotiate the size
from the image dimensions, forcing power-of-two storage exactly when
mipmaps are requested; on failure return the invalid texture with only
the diagnostic.  Otherwise create a handle, paste into an intermediate
`m_glSize` image with the bit depth of the source when the sizes differ, bind,
upload either the mipmap chain (setting `m_hasMipmaps`) or a single
level 0, and apply wrap and filter state. -/
def Texture.mkFromImage (g : Graphics) (newId : Nat) (image : Image)
    (buildMipmaps : Bool) : Texture × List GLEvent :=
  match setupSize g Texture.init image.getSize buildMipmaps with
  | (false, t, events) => (t, events)
  | (true, t, events) =>
    let t2 := { t with m_id := newId }
    let glImage : Image :=
      if t2.m_size ≠ t2.m_glSize then
        ⟨t2.m_glSize.width, t2.m_glSize.height, image.bpp⟩
      else image
    let uploadEvents :=
      if buildMipmaps then mipmapUpload glImage 0
      else setupPixels 0 glImage.getSize true glImage.bpp
    let t3 := if buildMipmaps then { t2 with m_hasMipmaps := true } else t2
    (t3, events ++ [.genTexture newId] ++ t2.bind ++ uploadEvents
      ++ setupWrap g t3 ++ setupFilters t3)

/-- Embedding of `Texture::Texture(const Size&)`: negotiate the size (returning the
invalid texture and only the diagnostic on failure), then create a
handle (`newId`, asserted non-zero by `createTexture`), bind, upload one
null level of `m_glSize` with 4 channels, and apply wrap and filter
state. -/
def Texture.mkFromSize (g : Graphics) (newId : Nat) (size : Size) :
    Texture × List GLEvent :=
  match setupSize g Texture.init size false with
  | (false, t, events) => (t, events)
  | (true, t, events) =>
    let t2 := { t with m_id := newId }
    (t2, events ++ [.genTexture newId] ++ t2.bind
      ++ setupPixels 0 t2.m_glSize false 4
      ++ setupWrap g t2 ++ setupFilters t2)

/-- Apply a transform matrix to a coordinate pair, row-vector style:
the scales sit on the diagonal and the offset in the third row, as in
`setupTranformMatrix`. -/
def applyTransform (m : Matrix3) (x y : ℚ) : ℚ × ℚ :=
  (x * m.m11 + y * m.m21 + m.m31, x * m.m12 + y * m.m22 + m.m32)

/-- Whether an event is a pixel upload (`glTexImage2D`). -/
def GLEvent.isUpload : GLEvent → Bool
  | .texImage2D _ _ _ _ _ => true
  | _ => false

/-- Capability fixture: every optional feature off, maximum size 4096. -/
def gNoNpot : Graphics := ⟨false, false, false, false, 4096⟩

/-- Capability fixture: every optional feature on, maximum size 4096. -/
def gAllOn : Graphics := ⟨true, true, true, true, 4096⟩

/-! ### Helper lemmas -/

@[simp]
theorem setupTranformMatrix_m_id (t : Texture) :
    (Texture.setupTranformMatrix t).m_id = t.m_id := by
  unfold Texture.setupTranformMatrix; split <;> rfl

@[simp]
theorem setupTranformMatrix_m_size (t : Texture) :
    (Texture.setupTranformMatrix t).m_size = t.m_size := by
  unfold Texture.setupTranformMatrix; split <;> rfl

@[simp]
theorem setupTranformMatrix_m_glSize (t : Texture) :
    (Texture.setupTranformMatrix t).m_glSize = t.m_glSize := by
  unfold Texture.setupTranformMatrix; split <;> rfl

@[simp]
theorem setupTranformMatrix_m_hasMipmaps (t : Texture) :
    (Texture.setupTranformMatrix t).m_hasMipmaps = t.m_hasMipmaps := by
  unfold Texture.setupTranformMatrix; split <;> rfl

@[simp]
theorem setupTranformMatrix_m_smooth (t : Texture) :
    (Texture.setupTranformMatrix t).m_smooth = t.m_smooth := by
  unfold Texture.setupTranformMatrix; split <;> rfl

@[simp]
theorem setupTranformMatrix_m_repeat (t : Texture) :
    (Texture.setupTranformMatrix t).m_repeat = t.m_repeat := by
  unfold Texture.setupTranformMatrix; split <;> rfl

@[simp]
theorem setupTranformMatrix_m_upsideDown (t : Texture) :
    (Texture.setupTranformMatrix t).m_upsideDown = t.m_upsideDown := by
  unfold Texture.setupTranformMatrix; split <;> rfl

/-- On an oversized negotiated size, `setupSize` fails with exactly the
one diagnostic and leaves the texture untouched. -/
theorem setupSize_fail (g : Graphics) (t : Texture) (size : Size) (force : Bool)
    (h : g.getMaxTextureSize <
        max (negotiatedSize g size force).width (negotiatedSize g size force).height) :
    setupSize g t size force =
      (false, t,
        [.logError size.width size.height g.getMaxTextureSize g.getMaxTextureSize]) := by
  unfold setupSize
  simp only [gt_iff_lt, if_pos h]

/-- On a size that passes validation, `setupSize` succeeds silently and
stores the negotiated size, recomputing the transform. -/
theorem setupSize_ok (g : Graphics) (t : Texture) (size : Size) (force : Bool)
    (h : max (negotiatedSize g size force).width (negotiatedSize g size force).height ≤
        g.getMaxTextureSize) :
    setupSize g t size force =
      (true,
        Texture.setupTranformMatrix
          { t with m_size := size, m_glSize := negotiatedSize g size force },
        []) := by
  unfold setupSize
  simp only [gt_iff_lt, if_neg (not_lt.mpr h)]

/-- Predicate: `p` is the smallest power of two that is at least `n`. -/
def IsLeastPowTwoGeq (p n : Nat) : Prop :=
  (∃ k, p = 2 ^ k) ∧ n ≤ p ∧ ∀ m, n ≤ 2 ^ m → p ≤ 2 ^ m

theorem to_power_of_two_go_isLeast (n : Nat) :
    ∀ fuel acc k : Nat, acc = 2 ^ k → (∀ j, j < k → 2 ^ j < n) →
      n ≤ 2 ^ (k + fuel) → IsLeastPowTwoGeq (to_power_of_two.go n fuel acc) n := by
  intro fuel
  induction fuel with
  | zero =>
    intro acc k hacc hmin hfuel
    refine ⟨⟨k, by simpa [to_power_of_two.go] using hacc⟩,
      by simpa [to_power_of_two.go, hacc] using hfuel, fun m hm => ?_⟩
    simp only [to_power_of_two.go, hacc]
    by_contra hlt
    push_neg at hlt
    have hmk : m < k := (Nat.pow_lt_pow_iff_right (by norm_num)).mp hlt
    exact absurd hm (not_le.mpr (hmin m hmk))
  | succ fuel ih =>
    intro acc k hacc hmin hfuel
    simp only [to_power_of_two.go]
    by_cases hle : n ≤ acc
    · rw [if_pos hle]
      refine ⟨⟨k, hacc⟩, hle, fun m hm => ?_⟩
      rw [hacc]
      by_contra hlt
      push_neg at hlt
      have hmk : m < k := (Nat.pow_lt_pow_iff_right (by norm_num)).mp hlt
      exact absurd hm (not_le.mpr (hmin m hmk))
    · rw [if_neg hle]
      refine ih (2 * acc) (k + 1) (by rw [hacc, pow_succ]; ring) ?_ ?_
      · intro j hj
        rcases Nat.lt_succ_iff_lt_or_eq.mp hj with hj2 | hj2
        · exact hmin j hj2
        · rw [hj2, ← hacc]
          exact not_le.mp hle
      · rw [show k + 1 + fuel = k + (fuel + 1) from by omega]
        exact hfuel

theorem to_power_of_two_isLeast (n : Nat) :
    IsLeastPowTwoGeq (to_power_of_two n) n :=
  to_power_of_two_go_isLeast n n 1 0 (by norm_num)
    (fun j hj => absurd hj (Nat.not_lt_zero j))
    (by simpa using (Nat.lt_two_pow n).le)

/-! ### Claim theorems -/

/-- C1: when `setupSize` succeeds, the stored storage size equals the
requested size if non-power-of-two textures are usable and rounding is
not forced; otherwise each dimension is independently the smallest power
of two ≥ the corresponding requested dimension. -/
theorem setupSize_storage_size (g : Graphics) (t t2 : Texture) (size : Size)
    (force : Bool) (events : List GLEvent)
    (h : setupSize g t size force = (true, t2, events)) :
    (g.canUseNonPowerOfTwoTextures = true ∧ force = false → t2.m_glSize = size) ∧
    ((g.canUseNonPowerOfTwoTextures = false ∨ force = true) →
      IsLeastPowTwoGeq t2.m_glSize.width size.width ∧
      IsLeastPowTwoGeq t2.m_glSize.height size.height) := by
  have hgl : t2.m_glSize = negotiatedSize g size force := by
    by_cases hc : g.getMaxTextureSize <
        max (negotiatedSize g size force).width (negotiatedSize g size force).height
    · rw [setupSize_fail g t size force hc] at h
      simp at h
    · rw [setupSize_ok g t size force (not_lt.mp hc)] at h
      have h2 := congrArg (fun p => p.2.1.m_glSize) h
      simpa using h2.symm
  constructor
  · rintro ⟨hnpot, hforce⟩
    rw [hgl]
    unfold negotiatedSize
    rw [if_neg]
    simp [hnpot, hforce]
  · intro hcase
    have : negotiatedSize g size force =
        ⟨to_power_of_two size.width, to_power_of_two size.height⟩ := by
      unfold negotiatedSize
      rw [if_pos]
      rcases hcase with h1 | h1 <;> simp [h1]
    rw [hgl, this]
    exact ⟨to_power_of_two_isLeast size.width, to_power_of_two_isLeast size.height⟩

/-- Witness for C1 at the spec scenario: 300×200 with non-power-of-two
unsupported rounds each dimension to the least power of two above it. -/
theorem setupSize_storage_size_witness :
    (gNoNpot.canUseNonPowerOfTwoTextures = false ∨ false = true) ∧
    IsLeastPowTwoGeq
      ((setupSize gNoNpot Texture.init ⟨300, 200⟩ false).2.1.m_glSize.width) 300 ∧
    IsLeastPowTwoGeq
      ((setupSize gNoNpot Texture.init ⟨300, 200⟩ false).2.1.m_glSize.height) 200 :=
  ⟨Or.inl rfl,
    setupSize_storage_size gNoNpot Texture.init
      ((setupSize gNoNpot Texture.init ⟨300, 200⟩ false).2.1) ⟨300, 200⟩ false
      ((setupSize gNoNpot Texture.init ⟨300, 200⟩ false).2.2)
      rfl |>.2 (Or.inl rfl)⟩

/-- C2: when the negotiated storage size exceeds the maximum texture
dimension, construction from a size fails: `setupSize` returns `false`,
the whole constructor trace is exactly one diagnostic event carrying the
requested size and the maximum size (so no GPU operation at all is
performed), and the texture is left in the default-constructed invalid
state with handle 0. -/
theorem mkFromSize_oversize_invalid (g : Graphics) (newId : Nat) (size : Size)
    (h : g.getMaxTextureSize <
        max (negotiatedSize g size false).width (negotiatedSize g size false).height) :
    (setupSize g Texture.init size false).1 = false ∧
    (Texture.mkFromSize g newId size).1.m_id = 0 ∧
    (Texture.mkFromSize g newId size).1 = Texture.init ∧
    (Texture.mkFromSize g newId size).2 =
      [.logError size.width size.height g.getMaxTextureSize g.getMaxTextureSize] := by
  have hfail := setupSize_fail g Texture.init size false h
  have hm : Texture.mkFromSize g newId size =
      (Texture.init,
        [.logError size.width size.height g.getMaxTextureSize g.getMaxTextureSize]) := by
    unfold Texture.mkFromSize
    rw [hfail]
  exact ⟨by rw [hfail], by rw [hm]; rfl, by rw [hm], by rw [hm]⟩

/-- Witness for C2 at the spec scenario: requesting 8192×8192 with a
4096 maximum yields an invalid texture and the single diagnostic. -/
theorem mkFromSize_oversize_invalid_witness :
    (setupSize gAllOn Texture.init ⟨8192, 8192⟩ false).1 = false ∧
    (Texture.mkFromSize gAllOn 7 ⟨8192, 8192⟩).1.m_id = 0 ∧
    (Texture.mkFromSize gAllOn 7 ⟨8192, 8192⟩).1 = Texture.init ∧
    (Texture.mkFromSize gAllOn 7 ⟨8192, 8192⟩).2 =
      [.logError 8192 8192 4096 4096] :=
  mkFromSize_oversize_invalid gAllOn 7 ⟨8192, 8192⟩ (by decide)

/-- C3 counterexample: an invalid texture (`m_id = 0`) is not protected
against mutators.  `setSmooth true` on the default (invalid) texture
under full capabilities changes `m_smooth` and issues a painter
notification, a bind of handle 0 and two filter parameter calls. -/
theorem invalid_mutator_not_noop_counterexample :
    Texture.init.m_id = 0 ∧
    (Texture.setSmooth gAllOn Texture.init true).1.m_smooth = true ∧
    (Texture.setSmooth gAllOn Texture.init true).2 =
      [.setPainterTexture, .bindTexture 0,
       .texParameteri .minFilter .linear, .texParameteri .magFilter .linear] := by
  refine ⟨rfl, ?_, ?_⟩ <;> rfl

/-- C3 amended: no operation of `Texture` consults `m_id` as a guard.
On an invalid texture (`m_id = 0`) the mutators are skipped only by
their ordinary guards (value unchanged, capability missing); whenever
those guards pass they mutate the state and issue their painter/GL calls
exactly as on a valid texture, binding handle 0. -/
theorem invalid_mutators_proceed (g : Graphics) (t : Texture) (v : Bool) (r : Rect)
    (h0 : t.m_id = 0) :
    (¬(v = true ∧ g.canUseBilinearFiltering = false) → v ≠ t.m_smooth →
      Texture.setSmooth g t v =
        ({ t with m_smooth := v },
         [.setPainterTexture, .bindTexture 0] ++ setupFilters { t with m_smooth := v })) ∧
    (t.m_repeat ≠ v →
      Texture.setRepeat g t v =
        ({ t with m_repeat := v },
         [.setPainterTexture, .bindTexture 0] ++ setupWrap g { t with m_repeat := v })) ∧
    (g.canUseHardwareMipmaps = true → t.m_hasMipmaps = false →
      Texture.buildHardwareMipmaps g t =
        (true, { t with m_hasMipmaps := true },
         [.setPainterTexture, .bindTexture 0]
           ++ setupFilters { t with m_hasMipmaps := true } ++ [.generateMipmap])) ∧
    Texture.copyFromScreen t r =
      (t, [.setPainterTexture, .bindTexture 0,
           .copyTexSubImage2D r.x r.y r.width r.height]) := by
  refine ⟨?_, ?_, ?_, ?_⟩
  · intro hcap hval
    unfold Texture.setSmooth
    rw [if_neg, if_neg]
    · simp [Texture.bind, h0]
    · exact fun hv => hval hv
    · intro hc
      rcases hc with ⟨hv, hb⟩
      exact hcap ⟨by simpa using hv, by simpa using hb⟩
  · intro hval
    unfold Texture.setRepeat
    rw [if_neg (by simpa using hval)]
    simp [Texture.bind, h0]
  · intro hcap hmip
    unfold Texture.buildHardwareMipmaps
    rw [if_neg (by simp [hcap]), if_pos (by simp [hmip])]
    simp [Texture.bind, h0]
  · unfold Texture.copyFromScreen
    simp [Texture.bind, h0]

/-- Witness for C3 amended: on the invalid default texture under full
capabilities, `setSmooth true` proceeds with a handle-0 bind. -/
theorem invalid_mutators_proceed_witness :
    Texture.setSmooth gAllOn Texture.init true =
      ({ Texture.init with m_smooth := true },
       [.setPainterTexture, .bindTexture 0]
         ++ setupFilters { Texture.init with m_smooth := true }) :=
  (invalid_mutators_proceed gAllOn Texture.init true ⟨0, 0, 0, 0⟩ rfl).1
    (by decide) (by decide)

/-- Fixture for C4/C7: a valid texture whose storage (512×256) pads the
logical size (300×200), not upside-down. -/
def tValid : Texture :=
  { Texture.init with m_id := 1, m_size := ⟨300, 200⟩, m_glSize := ⟨512, 256⟩ }

/-- C4: for a valid texture, the recomputed transform matrix scales x by
`1/sw` and y by `1/sh` with identity offset when not upside-down; when
upside-down the y scale is `-1/sh`, the vertical offset entry is
`lh/sh`, and the x scale is unchanged.  Consequently the transform maps
`(x, y)` to `(x/sw, y/sh)`, respectively `(x/sw, (lh - y)/sh)`. -/
theorem setupTranformMatrix_spec (t : Texture) (hvalid : t.m_id ≠ 0) :
    (t.m_upsideDown = false →
      (Texture.setupTranformMatrix t).m_transformMatrix =
        ⟨1 / (t.m_glSize.width : ℚ), 0, 0,
         0, 1 / (t.m_glSize.height : ℚ), 0,
         0, 0, 1⟩ ∧
      ∀ x y : ℚ,
        applyTransform (Texture.setupTranformMatrix t).m_transformMatrix x y =
          (x / (t.m_glSize.width : ℚ), y / (t.m_glSize.height : ℚ))) ∧
    (t.m_upsideDown = true →
      (Texture.setupTranformMatrix t).m_transformMatrix =
        ⟨1 / (t.m_glSize.width : ℚ), 0, 0,
         0, -(1 / (t.m_glSize.height : ℚ)), 0,
         0, (t.m_size.height : ℚ) / (t.m_glSize.height : ℚ), 1⟩ ∧
      ∀ x y : ℚ,
        applyTransform (Texture.setupTranformMatrix t).m_transformMatrix x y =
          (x / (t.m_glSize.width : ℚ),
           ((t.m_size.height : ℚ) - y) / (t.m_glSize.height : ℚ))) := by
  constructor
  · intro hu
    have hmat : (Texture.setupTranformMatrix t).m_transformMatrix =
        ⟨1 / (t.m_glSize.width : ℚ), 0, 0,
         0, 1 / (t.m_glSize.height : ℚ), 0, 0, 0, 1⟩ := by
      unfold Texture.setupTranformMatrix
      rw [if_neg (by simp [hu])]
    refine ⟨hmat, fun x y => ?_⟩
    rw [hmat]
    unfold applyTransform
    simp only [Prod.mk.injEq]
    constructor <;> ring
  · intro hu
    have hmat : (Texture.setupTranformMatrix t).m_transformMatrix =
        ⟨1 / (t.m_glSize.width : ℚ), 0, 0,
         0, -(1 / (t.m_glSize.height : ℚ)), 0,
         0, (t.m_size.height : ℚ) / (t.m_glSize.height : ℚ), 1⟩ := by
      unfold Texture.setupTranformMatrix
      rw [if_pos (by simp [hu])]
    refine ⟨hmat, fun x y => ?_⟩
    rw [hmat]
    unfold applyTransform
    simp only [Prod.mk.injEq]
    constructor <;> ring

/-- Witness for C4: the valid 300×200-in-512×256 texture, not
upside-down, gets the `1/512` and `1/256` diagonal scales. -/
theorem setupTranformMatrix_spec_witness :
    tValid.m_id ≠ 0 ∧ tValid.m_upsideDown = false ∧
    (Texture.setupTranformMatrix tValid).m_transformMatrix =
      ⟨1 / (tValid.m_glSize.width : ℚ), 0, 0,
       0, 1 / (tValid.m_glSize.height : ℚ), 0,
       0, 0, 1⟩ :=
  ⟨by decide, rfl, ((setupTranformMatrix_spec tValid (by decide)).1 rfl).1⟩

/-- C5: construction from a size that passes validation allocates the
handle, binds it, uploads exactly one level — level 0, with a null
(blank) pixel pointer, sized to the storage size, with 4 channels
mapping to RGBA — and then applies wrap state followed by filter
state. -/
theorem mkFromSize_success (g : Graphics) (newId : Nat) (size : Size)
    (t : Texture) (events : List GLEvent)
    (hmax : max (negotiatedSize g size false).width
        (negotiatedSize g size false).height ≤ g.getMaxTextureSize)
    (hid : newId ≠ 0)
    (h : Texture.mkFromSize g newId size = (t, events)) :
    t.m_id = newId ∧ t.m_id ≠ 0 ∧ t.m_size = size ∧
    t.m_glSize = negotiatedSize g size false ∧
    events =
      [.genTexture newId, .setPainterTexture, .bindTexture newId,
       .texImage2D 0 t.m_glSize.width t.m_glSize.height .rgba false]
      ++ setupWrap g t ++ setupFilters t ∧
    events.countP (fun e => e.isUpload) = 1 := by
  have hok := setupSize_ok g Texture.init size false hmax
  unfold Texture.mkFromSize at h
  rw [hok] at h
  injection h with h1 h2
  subst h1
  subst h2
  refine ⟨rfl, by simpa using hid, by simp, by simp, ?_, ?_⟩
  · simp [Texture.bind, setupPixels]
  · simp [Texture.bind, setupPixels, setupWrap, setupFilters,
      List.countP_append, List.countP_cons, GLEvent.isUpload]

/-- Witness for C5: 300×200 under full capabilities (storage equals the
request) with handle 5. -/
theorem mkFromSize_success_witness :
    (Texture.mkFromSize gAllOn 5 ⟨300, 200⟩).1.m_id = 5 ∧
    (Texture.mkFromSize gAllOn 5 ⟨300, 200⟩).1.m_id ≠ 0 ∧
    (Texture.mkFromSize gAllOn 5 ⟨300, 200⟩).1.m_size = ⟨300, 200⟩ ∧
    (Texture.mkFromSize gAllOn 5 ⟨300, 200⟩).1.m_glSize =
      negotiatedSize gAllOn ⟨300, 200⟩ false ∧
    (Texture.mkFromSize gAllOn 5 ⟨300, 200⟩).2 =
      [.genTexture 5, .setPainterTexture, .bindTexture 5,
       .texImage2D 0 (Texture.mkFromSize gAllOn 5 ⟨300, 200⟩).1.m_glSize.width
         (Texture.mkFromSize gAllOn 5 ⟨300, 200⟩).1.m_glSize.height .rgba false]
      ++ setupWrap gAllOn (Texture.mkFromSize gAllOn 5 ⟨300, 200⟩).1
      ++ setupFilters (Texture.mkFromSize gAllOn 5 ⟨300, 200⟩).1 ∧
    (Texture.mkFromSize gAllOn 5 ⟨300, 200⟩).2.countP (fun e => e.isUpload) = 1 :=
  mkFromSize_success gAllOn 5 ⟨300, 200⟩
    (Texture.mkFromSize gAllOn 5 ⟨300, 200⟩).1
    (Texture.mkFromSize gAllOn 5 ⟨300, 200⟩).2
    (by decide) (by decide) rfl

/-- C6: `buildHardwareMipmaps` returns `false` with no state change and
an empty trace when the capability is absent; otherwise it returns
`true`, leaves `m_hasMipmaps` set, binds, re-applies the filter state
exactly when `m_hasMipmaps` transitions from `false` to `true`, and
issues the mipmap-generation request. -/
theorem buildHardwareMipmaps_spec (g : Graphics) (t : Texture) :
    (g.canUseHardwareMipmaps = false →
      Texture.buildHardwareMipmaps g t = (false, t, [])) ∧
    (g.canUseHardwareMipmaps = true →
      (Texture.buildHardwareMipmaps g t).1 = true ∧
      (Texture.buildHardwareMipmaps g t).2.1.m_hasMipmaps = true ∧
      (t.m_hasMipmaps = false →
        Texture.buildHardwareMipmaps g t =
          (true, { t with m_hasMipmaps := true },
           t.bind ++ setupFilters { t with m_hasMipmaps := true }
             ++ [.generateMipmap])) ∧
      (t.m_hasMipmaps = true →
        Texture.buildHardwareMipmaps g t = (true, t, t.bind ++ [.generateMipmap]))) := by
  constructor
  · intro hcap
    unfold Texture.buildHardwareMipmaps
    rw [if_pos (by simp [hcap])]
  · intro hcap
    unfold Texture.buildHardwareMipmaps
    rw [if_neg (by simp [hcap])]
    by_cases hmip : t.m_hasMipmaps
    · rw [if_neg (by simp [hmip])]
      exact ⟨rfl, hmip, fun hc => absurd hmip (by simp [hc]), fun _ => rfl⟩
    · rw [if_pos (by simpa using hmip)]
      exact ⟨rfl, rfl, fun _ => rfl, fun hc => absurd hc (by simpa using hmip)⟩

/-- Witness for C6: with hardware mipmaps unavailable (`gNoNpot`), the
call is a no-op returning `false` on the fixture texture. -/
theorem buildHardwareMipmaps_spec_witness :
    Texture.buildHardwareMipmaps gNoNpot tValid = (false, tValid, []) :=
  (buildHardwareMipmaps_spec gNoNpot tValid).1 rfl

/-- C7: starting from `upsideDown = false` with the transform matrix in
its recomputed (never stale) form, `setUpsideDown true` followed by
`setUpsideDown false` restores the texture — the matrix included —
exactly; and in that state the transform maps sampling coordinate
`(0,0)` to the top left of the texture, `(0,0)`. -/
theorem setUpsideDown_roundtrip (t : Texture)
    (h1 : t.m_upsideDown = false)
    (h2 : t.m_transformMatrix = (Texture.setupTranformMatrix t).m_transformMatrix) :
    Texture.setUpsideDown (Texture.setUpsideDown t true) false = t ∧
    applyTransform t.m_transformMatrix 0 0 = (0, 0) := by
  have hmat : (Texture.setupTranformMatrix t).m_transformMatrix =
      ⟨1 / (t.m_glSize.width : ℚ), 0, 0,
       0, 1 / (t.m_glSize.height : ℚ), 0, 0, 0, 1⟩ := by
    unfold Texture.setupTranformMatrix
    rw [if_neg (by simp [h1])]
  constructor
  · have hstep1 : Texture.setUpsideDown t true =
        Texture.setupTranformMatrix { t with m_upsideDown := true } := by
      unfold Texture.setUpsideDown
      rw [if_neg (by simp [h1])]
    have hT1 : Texture.setupTranformMatrix { t with m_upsideDown := true } =
        { t with m_upsideDown := true, m_transformMatrix :=
            ⟨1 / (t.m_glSize.width : ℚ), 0, 0,
             0, -(1 / (t.m_glSize.height : ℚ)), 0,
             0, (t.m_size.height : ℚ) / (t.m_glSize.height : ℚ), 1⟩ } := by
      unfold Texture.setupTranformMatrix
      rw [if_pos (by simp)]
    rw [hstep1, hT1]
    unfold Texture.setUpsideDown
    rw [if_neg (by simp)]
    unfold Texture.setupTranformMatrix
    rw [if_neg (by simp)]
    have hmm : t.m_transformMatrix =
        ⟨1 / (t.m_glSize.width : ℚ), 0, 0,
         0, 1 / (t.m_glSize.height : ℚ), 0, 0, 0, 1⟩ := by
      rw [h2, hmat]
    clear h2 hmat
    cases t
    simp_all
  · rw [h2, hmat]
    unfold applyTransform
    simp

/-- Witness for C7: round-trip on the fixture texture with its transform
freshly recomputed. -/
theorem setUpsideDown_roundtrip_witness :
    Texture.setUpsideDown
        (Texture.setUpsideDown (Texture.setupTranformMatrix tValid) true) false =
      Texture.setupTranformMatrix tValid ∧
    applyTransform (Texture.setupTranformMatrix tValid).m_transformMatrix 0 0 =
      (0, 0) :=
  setUpsideDown_roundtrip (Texture.setupTranformMatrix tValid) rfl rfl

/-- C8: whenever the wrap state is applied, both wrap axes get
clamp-to-edge exactly when `m_repeat` is off and clamp-to-edge is
supported, and both get repeat (tiling) in every other case — including
repeat off with clamp-to-edge unsupported. -/
theorem setupWrap_spec (g : Graphics) (t : Texture) :
    (t.m_repeat = false ∧ g.canUseClampToEdge = true →
      setupWrap g t =
        [.texParameteri .wrapS .clampToEdge, .texParameteri .wrapT .clampToEdge]) ∧
    (t.m_repeat = true ∨ g.canUseClampToEdge = false →
      setupWrap g t =
        [.texParameteri .wrapS .glRepeat, .texParameteri .wrapT .glRepeat]) := by
  constructor
  · rintro ⟨hr, hc⟩
    unfold setupWrap
    rw [if_pos (by simp [hr, hc])]
  · intro hcase
    unfold setupWrap
    rw [if_neg]
    rcases hcase with hc | hc <;> simp [hc]

/-- Witness for C8 at the spec scenario: repeat off with clamp-to-edge
unsupported resolves to repeat/tiling on both axes. -/
theorem setupWrap_spec_witness :
    setupWrap gNoNpot { tValid with m_repeat := false } =
      [.texParameteri .wrapS .glRepeat, .texParameteri .wrapT .glRepeat] :=
  (setupWrap_spec gNoNpot { tValid with m_repeat := false }).2 (Or.inr rfl)

/-- C9: `setSmooth` and `setRepeat` are idempotent: after a first call
with value `v`, a second call with the same `v` is a no-op — it returns
the state unchanged and issues no painter/GL call at all. -/
theorem setSmooth_setRepeat_idempotent (g : Graphics) (t : Texture) (v : Bool) :
    Texture.setSmooth g (Texture.setSmooth g t v).1 v =
      ((Texture.setSmooth g t v).1, []) ∧
    Texture.setRepeat g (Texture.setRepeat g t v).1 v =
      ((Texture.setRepeat g t v).1, []) := by
  constructor
  · by_cases hcap : (v : Prop) ∧ ¬(g.canUseBilinearFiltering : Prop)
    · have hfst : ∀ s : Texture, Texture.setSmooth g s v = (s, []) := by
        intro s
        unfold Texture.setSmooth
        rw [if_pos hcap]
      rw [hfst, hfst]
    · have hsm : (Texture.setSmooth g t v).1.m_smooth = v := by
        unfold Texture.setSmooth
        rw [if_neg hcap]
        by_cases hsame : v = t.m_smooth
        · rw [if_pos hsame]
          exact hsame.symm
        · rw [if_neg hsame]
      set s := (Texture.setSmooth g t v).1
      unfold Texture.setSmooth
      rw [if_neg hcap, if_pos hsm.symm]
  · by_cases hsame : t.m_repeat = v
    · have h1 : Texture.setRepeat g t v = (t, []) := by
        unfold Texture.setRepeat
        rw [if_pos hsame]
      rw [h1]
      unfold Texture.setRepeat
      rw [if_pos hsame]
    · have hr : (Texture.setRepeat g t v).1.m_repeat = v := by
        unfold Texture.setRepeat
        rw [if_neg hsame]
      set s := (Texture.setRepeat g t v).1
      unfold Texture.setRepeat
      rw [if_pos hr]

/-- C10: `m_hasMipmaps = true` is preserved by every exposed mutator of
the texture (`setSmooth`, `setRepeat`, `setUpsideDown`,
`buildHardwareMipmaps`, `copyFromScreen`); and the mipmapped from-image
construction establishes it whenever size negotiation succeeds.  No
operation ever resets the flag to `false`. -/
theorem hasMipmaps_monotone (g : Graphics) (t : Texture) (v : Bool) (r : Rect)
    (img : Image) (newId : Nat)
    (h : t.m_hasMipmaps = true) :
    (Texture.setSmooth g t v).1.m_hasMipmaps = true ∧
    (Texture.setRepeat g t v).1.m_hasMipmaps = true ∧
    (Texture.setUpsideDown t v).m_hasMipmaps = true ∧
    (Texture.buildHardwareMipmaps g t).2.1.m_hasMipmaps = true ∧
    (Texture.copyFromScreen t r).1.m_hasMipmaps = true ∧
    (max (negotiatedSize g img.getSize true).width
        (negotiatedSize g img.getSize true).height ≤ g.getMaxTextureSize →
      (Texture.mkFromImage g newId img true).1.m_hasMipmaps = true) := by
  refine ⟨?_, ?_, ?_, ?_, ?_, ?_⟩
  · unfold Texture.setSmooth
    split_ifs <;> simpa using h
  · unfold Texture.setRepeat
    split_ifs <;> simpa using h
  · unfold Texture.setUpsideDown
    split_ifs <;> simp [h]
  · unfold Texture.buildHardwareMipmaps
    split_ifs <;> simp_all
  · exact h
  · intro hmax
    have hok := setupSize_ok g Texture.init img.getSize true hmax
    unfold Texture.mkFromImage
    rw [hok]
    rfl

/-- Witness for C10: a mipmapped texture keeps the flag through
`setSmooth`, and the mipmapped from-image construction of a 300×200
4-channel image under full capabilities sets it. -/
theorem hasMipmaps_monotone_witness :
    ({ tValid with m_hasMipmaps := true } : Texture).m_hasMipmaps = true ∧
    (Texture.setSmooth gAllOn { tValid with m_hasMipmaps := true } false).1.m_hasMipmaps
      = true ∧
    (Texture.mkFromImage gAllOn 9 ⟨300, 200, 4⟩ true).1.m_hasMipmaps = true :=
  ⟨rfl,
   (hasMipmaps_monotone gAllOn { tValid with m_hasMipmaps := true } false
      ⟨0, 0, 0, 0⟩ ⟨300, 200, 4⟩ 9 rfl).1,
   (hasMipmaps_monotone gAllOn { tValid with m_hasMipmaps := true } false
      ⟨0, 0, 0, 0⟩ ⟨300, 200, 4⟩ 9 rfl).2.2.2.2.2 (by decide)⟩
